import Mathlib

/-!
Verification of the chktiles SVG tile scanner.

The repository has a single Go source file with two variants of the same
program (an xmlquery-based variant and a schema-decode variant, separated
in `src/chktiles.go`).  The definitions below are a shallow embedding of
the xmlquery variant (the complete one); the schema-decode variant is
embedded, where it differs, in the `SchemaVariant` namespace.

Modelling conventions:
* `float64` values that arise here come from parsing decimal strings, so
  they are modelled exactly as rationals (`ℚ`).
* Every `fmt.Printf` performed by the pipeline is modelled as an element of
  the `Line` inductive, one constructor per printf call site, carrying the
  arguments that identify the call.  Report-sink diagnostics (lines whose
  first field is a quoted file path followed by an ERROR/WARNING token) are
  distinguished from operational log lines by `severity`.
* The filesystem is modelled as a list of `FileInfo` records: `content` is
  `none` when the file cannot be opened/read (so `makeHash` fails), `size`
  is `none` when `os.Stat` fails (so `getFileSize` fails).
* `filepath.Walk` is modelled by `runWalk` over the sequence of visited
  entries; an entry whose error flag is set corresponds to the walker
  passing a non-nil `err` to the callback.  A callback returning a non-nil
  error makes the walk stop and return that error, which `runWalk` models
  with its `Bool` (aborted) component.
* The MD5 digest is an opaque parameter `md5hex : List Nat → String`
  applied to the byte content of the file; the theorems hold for every digest
  function, hence for MD5.
* The aspell speller is modelled by `Speller`: `ok` is whether
  `aspell.NewSpeller` succeeded, `check` is the dictionary test.
* The `-v` verbose trace lines are omitted: they are not diagnostics and no
  claim concerns them.
-/

set_option maxRecDepth 8000

namespace Chktiles

/-- Severity of a report-sink diagnostic, per the report format
`"path"\tSEVERITY\tmessage`. -/
inductive Severity
  | error
  | warning
deriving DecidableEq, Repr

/-- One printed line, one constructor per `fmt.Printf` call site of the
pipeline (verbose tracing aside).  Constructors carry the identifying
format arguments. -/
inductive Line
  /-- `checkKeywords`: `"%q\tERROR\tKeywords missing\n"` -/
  | keywordsMissing (path : String)
  /-- `checkSize`: `"%q\tERROR\tWidth (%f) is too small\n"` -/
  | widthTooSmall (path : String) (w : ℚ)
  /-- `checkSize`: `"%q\tERROR\tHeight (%f) is too small\n"` -/
  | heightTooSmall (path : String) (h : ℚ)
  /-- `checkUnits`: `"%q\tWARNING\tWidth units are not px, %q\n"` -/
  | widthUnitsNotPx (path : String) (w : String)
  /-- `checkUnits`: `"%q\tWARNING\tHeight units are not px, %q\n"` -/
  | heightUnitsNotPx (path : String) (h : String)
  /-- `checkIdentifier`: `"%q\tERROR\tIdentifier missing\n"` -/
  | identifierMissing (path : String)
  /-- `checkKeywordSpelling`: `"%q\tERROR\tKeywords misspelled: %s\n"` -/
  | keywordsMisspelled (path : String) (s : String)
  /-- `checkTspanSpelling`: `"%q\tERROR\tText misspelled: %s\n"` -/
  | textMisspelled (path : String) (s : String)
  /-- `checkDuplicates`: `"%q\tWARNING\tduplicate file name %q\n"` -/
  | duplicateName (checkPath refPath : String)
  /-- `checkDuplicates`: `"%q\tWARNING\tduplicate file size %q\n"` -/
  | duplicateSize (checkPath refPath : String)
  /-- `checkDuplicates`: `"%q\tWARNING\tduplicate file hash %q\n"` -/
  | duplicateHash (checkPath refPath : String)
  /-- `toFloat`: `"toFloat\tERROR\tunable to convert %q, %v\n"` -/
  | toFloatError (s : String)
  /-- speller construction failure log, `"checkKeywordSpelling\tERROR\t%v\n"`
  (both spelling checks print this same prefix) -/
  | spellerInitError
  /-- `makeHash`: failure to open or read the file
  (`"makeHash\tERROR\tunable to open %q, %v\n"` or
  `"makeHash\tERROR\tunable to create hash of %q, %v\n"`) -/
  | makeHashError (path : String)
  /-- `getFileSize`: `"getFileSize\tERROR\tunable to get size of %q, %v\n"` -/
  | getFileSizeError (path : String)
  /-- `checkDuplicates` walk callback:
  `"checkDuplicates\tERROR\tunable to access %q, %v\n"` -/
  | dupAccessError (path : String)
  /-- `checkDuplicates`: `"checkDuplicates\tERROR\tunable to walk directory %q, %v\n"` -/
  | dupWalkError (dir : String)
  /-- `checkTiles` walk callback:
  `"checkTiles\tERROR\tunable to access path %q, %v\n"` -/
  | tilesAccessError (path : String)
  /-- `checkTiles`: `"checkTiles\tERROR\tunable to open %q, %v\n"` -/
  | tilesOpenError (path : String)
  /-- `parseSvg`: `"parseSvg: \tERROR\tcould not parse SVG file. %v\n"` -/
  | parseSvgError (path : String)
  /-- `checkTiles`: `"checkTiles\tERROR\tunable to walk directory %q, %v\n"` -/
  | tilesWalkError (dir : String)
deriving DecidableEq, Repr

/-- The severity of a report-sink diagnostic; `none` for operational log
lines whose first field is a function name, not a quoted file path. -/
def severity : Line → Option Severity
  | .keywordsMissing _ => some .error
  | .widthTooSmall _ _ => some .error
  | .heightTooSmall _ _ => some .error
  | .widthUnitsNotPx _ _ => some .warning
  | .heightUnitsNotPx _ _ => some .warning
  | .identifierMissing _ => some .error
  | .keywordsMisspelled _ _ => some .error
  | .textMisspelled _ _ => some .error
  | .duplicateName _ _ => some .warning
  | .duplicateSize _ _ => some .warning
  | .duplicateHash _ _ => some .warning
  | _ => none

/-- The report-sink diagnostics among a sequence of printed lines. -/
def diags (ls : List Line) : List Line := ls.filter (fun l => (severity l).isSome)

/-- The parsed view of one SVG file (spec §3 TileDocument).  `keywords` are
the inner texts of the `//rdf:li` nodes; `identifier` is the text of the
`//dc:identifier` node, `none` when the element is absent; `textRuns` are
the inner texts of the `//svg:tspan` nodes. -/
structure TileDocument where
  width : String
  height : String
  viewBox : String
  keywords : List String
  identifier : Option String
  textRuns : List String
deriving DecidableEq, Repr

/-! ### Unit Converter -/

/-- `const pxPerIn = 96` -/
def pxPerIn : ℚ := 96
/-- `const pxPerMm = (0.039370787 * pxPerIn)` -/
def pxPerMm : ℚ := 0.039370787 * pxPerIn
/-- `const pxPerPt = (0.0138888889 * pxPerIn)` -/
def pxPerPt : ℚ := 0.0138888889 * pxPerIn
/-- `const pxPerPc = (0.1666666667 * pxPerIn)` -/
def pxPerPc : ℚ := 0.1666666667 * pxPerIn
/-- `const pxPerFt = (pxPerIn * 12)` -/
def pxPerFt : ℚ := pxPerIn * 12
/-- `const pxPerCm = (0.3937007874 * pxPerIn)` -/
def pxPerCm : ℚ := 0.3937007874 * pxPerIn
/-- `const pxPerM = (0.0254 * pxPerIn)` -/
def pxPerM : ℚ := 0.0254 * pxPerIn

/-- `const minWidth = 80` -/
def minWidth : ℚ := 80
/-- `const minHeight = 80` -/
def minHeight : ℚ := 80

/-- Go `strings.HasSuffix s suffix`, on the character lists. -/
def hasSuffix (s suffix : String) : Bool := List.isSuffixOf suffix.data s.data

/-- `getUnitConversion`: the if/else-if suffix chain of the source, in
source order. -/
def getUnitConversion (value : String) : ℚ :=
  if hasSuffix value "in" then pxPerIn
  else if hasSuffix value "mm" then pxPerMm
  else if hasSuffix value "pt" then pxPerPt
  else if hasSuffix value "pc" then pxPerPc
  else if hasSuffix value "ft" then pxPerFt
  else if hasSuffix value "cm" then pxPerCm
  else if hasSuffix value "m" then pxPerM
  else 1.0

/-- The regexp replacement `[^0-9\.] -> ""`: keep only ASCII digits and
decimal points. -/
def stripNonNumeric (s : String) : String :=
  String.mk (s.data.filter (fun c => c.isDigit || c = '.'))

/-- Value of a list of decimal digit characters. -/
def digitsToNat (ds : List Char) : Nat :=
  ds.foldl (fun a c => 10 * a + (c.toNat - 48)) 0

/-- `strconv.ParseFloat` restricted to the shapes that survive the digit/dot
strip: accepted iff the string consists of digits and at most one dot and
contains at least one digit (e.g. `"80.5"`, `"5."`, `".5"`; rejected:
`""`, `"."`, `"1.2.3"`, anything with other characters).  The value is
exact (`ℚ`), modelling the parsed `float64`. -/
def parseDecimal (s : String) : Option ℚ :=
  let cs := s.data
  if !cs.all (fun c => c.isDigit || c = '.') then none
  else if cs.count '.' = 0 then
    if cs.isEmpty then none else some (digitsToNat cs : ℚ)
  else if cs.count '.' = 1 then
    let ip := cs.takeWhile (fun c => c ≠ '.')
    let fp := (cs.dropWhile (fun c => c ≠ '.')).tail
    if ip.isEmpty && fp.isEmpty then none
    else some ((digitsToNat ip : ℚ) + (digitsToNat fp : ℚ) / (10 ^ fp.length))
  else none

/-- `toFloat`: strip every character that is not a digit or a dot, parse the
remainder; on a parse error print the conversion-error line and return the
zero value `strconv.ParseFloat` yields on a syntax error. -/
def toFloat (s : String) : ℚ × List Line :=
  match parseDecimal (stripNonNumeric s) with
  | some f => (f, [])
  | none => (0, [Line.toFloatError s])

/-! ### Check Suite -/

/-- The aspell environment: `ok` is whether `aspell.NewSpeller` succeeded,
`check` is `speller.Check`. -/
structure Speller where
  ok : Bool
  check : String → Bool

/-- `checkKeywords`: the `//rdf:li` nodes are `doc.keywords`. -/
def checkKeywords (path : String) (doc : TileDocument) : List Line :=
  if doc.keywords.length = 0 then [Line.keywordsMissing path] else []

/-- `checkSize`: `toFloat` of the raw width/height attribute strings (each
may print its own conversion-error line first), then the two `< 80`
comparisons. -/
def checkSize (path : String) (doc : TileDocument) : List Line :=
  let w := toFloat doc.width
  let h := toFloat doc.height
  w.2 ++ h.2 ++
    (if w.1 < minWidth then [Line.widthTooSmall path w.1] else []) ++
    (if h.1 < minHeight then [Line.heightTooSmall path h.1] else [])

/-- `checkUnits`: a WARNING per dimension whose unit conversion is not 1.0. -/
def checkUnits (path : String) (doc : TileDocument) : List Line :=
  (if getUnitConversion doc.width ≠ 1.0 then [Line.widthUnitsNotPx path doc.width] else []) ++
    (if getUnitConversion doc.height ≠ 1.0 then [Line.heightUnitsNotPx path doc.height] else [])

/-- `checkIdentifier` (xmlquery variant): ERROR iff
`xmlquery.FindOne(node, "//dc:identifier")` is nil, i.e. the element is
absent.  The text content of the element is not inspected. -/
def checkIdentifier (path : String) (doc : TileDocument) : List Line :=
  if doc.identifier.isNone then [Line.identifierMissing path] else []

/-- Go `strings.Split` with a one-character separator: split at every
occurrence, keeping empty fields (`Split("", sep) = [""]`). -/
def splitOnChar (sep : Char) (cs : List Char) : List (List Char) :=
  cs.foldr
    (fun c acc =>
      match acc with
      | [] => [[c]]
      | g :: gs => if c = sep then [] :: g :: gs else (c :: g) :: gs)
    [[]]

/-- `strings.Split(s, " ")`. -/
def splitSpace (s : String) : List String := (splitOnChar ' ' s.data).map String.mk

/-- The Go loop of `checkKeywordSpelling`: for each non-empty keyword,
split on single spaces and collect the words `speller.Check` rejects. -/
def rejectedKeywordTokens (sp : Speller) (keywords : List String) : List String :=
  keywords.foldl
    (fun acc kw =>
      if kw ≠ "" then acc ++ (splitSpace kw).filter (fun w => sp.check w = false)
      else acc)
    []

/-- `checkKeywordSpelling`: speller construction first (on failure print the
log line and return), then the empty-keyword short-circuit, then one ERROR
with the comma-joined rejected words when there are any. -/
def checkKeywordSpelling (sp : Speller) (path : String) (doc : TileDocument) : List Line :=
  if sp.ok = false then [Line.spellerInitError]
  else if doc.keywords.length = 0 then []
  else
    let misspelled := rejectedKeywordTokens sp doc.keywords
    if misspelled.length > 0 then
      [Line.keywordsMisspelled path (String.intercalate ", " misspelled)]
    else []

/-- `strings.Replace(word, "/", "", -1)`: remove every forward slash. -/
def stripSlashes (w : String) : String :=
  String.mk (w.data.filter (fun c => c ≠ '/'))

/-- The Go loop of `checkTspanSpelling`: for each non-empty text run, split
on single spaces; a word is collected (in its original, unstripped form)
when `speller.Check` rejects its slash-stripped form. -/
def rejectedTokens (sp : Speller) (runs : List String) : List String :=
  runs.foldl
    (fun acc t =>
      if t ≠ "" then acc ++ (splitSpace t).filter (fun w => sp.check (stripSlashes w) = false)
      else acc)
    []

/-- `checkTspanSpelling` (xmlquery variant): the `//svg:tspan` inner texts
are `doc.textRuns`; same shape as `checkKeywordSpelling` with the
slash-stripping normalization. -/
def checkTspanSpelling (sp : Speller) (path : String) (doc : TileDocument) : List Line :=
  if sp.ok = false then [Line.spellerInitError]
  else if doc.textRuns.length = 0 then []
  else
    let misspelled := rejectedTokens sp doc.textRuns
    if misspelled.length > 0 then
      [Line.textMisspelled path (String.intercalate ", " misspelled)]
    else []

/-! ### Filesystem model and Duplicate Detector -/

/-- What the filesystem yields for one file: `content` is `none` when the
file cannot be opened or read (`os.Open` / `io.Copy` failure inside
`makeHash`), `size` is `none` when `os.Stat` fails
(inside `getFileSize`). -/
structure FileInfo where
  path : String
  content : Option (List Nat)
  size : Option Int
deriving DecidableEq, Repr

/-- Path lookup in the modelled filesystem. -/
def lookupFS (fs : List FileInfo) (p : String) : Option FileInfo :=
  fs.find? (fun fi => fi.path = p)

/-- `makeHash`: on open/read failure print the error line and return `""`,
otherwise the hex MD5 digest of the content (`md5hex` is the digest
function, kept abstract). -/
def makeHash (md5hex : List Nat → String) (fs : List FileInfo) (path : String) :
    String × List Line :=
  match (lookupFS fs path).bind FileInfo.content with
  | some bs => (md5hex bs, [])
  | none => ("", [Line.makeHashError path])

/-- `getFileSize`: on `os.Stat` failure print the error line and return 0. -/
def getFileSize (fs : List FileInfo) (path : String) : Int × List Line :=
  match (lookupFS fs path).bind FileInfo.size with
  | some n => (n, [])
  | none => (0, [Line.getFileSizeError path])

/-- Go `filepath.Base`, for the slash-separated paths used here: the last
nonempty slash-separated component (trailing slashes ignored); `"."` for
the empty path, `"/"` for a path of slashes only. -/
def baseName (p : String) : String :=
  match ((splitOnChar '/' p.data).map String.mk).reverse.find? (fun s => s ≠ "") with
  | some s => s
  | none => if p = "" then "." else "/"

/-- Go `filepath.Ext`: the suffix starting at the final dot of the final
path element, empty when there is none (scan the path backwards; a slash
before any dot means no extension). -/
def extFromRev : List Char → List Char → String
  | [], _ => ""
  | c :: rest, acc =>
    if c = '/' then ""
    else if c = '.' then String.mk (c :: acc)
    else extFromRev rest (c :: acc)

/-- Go `filepath.Ext path`. -/
def extName (p : String) : String := extFromRev p.data.reverse []

/-- One `filepath.Walk` step: run the callback on each visited entry in
order; a callback returning a non-nil error (second component `true`)
stops the walk entirely, and the walk returns that error. -/
def runWalk {α : Type} (step : α → List Line × Bool) : List α → List Line × Bool
  | [] => ([], false)
  | e :: rest =>
    let r := step e
    if r.2 then (r.1, true)
    else
      let rr := runWalk step rest
      (r.1 ++ rr.1, rr.2)

/-- The body of the `filepath.Walk` callback inside `checkDuplicates`: the
hash, basename and size of the candidate are precomputed arguments.  A non-nil
incoming walk error is printed and returned (which aborts the walk);
non-`.svg` entries are skipped; otherwise the three match axes are
evaluated independently, each printing its own WARNING, and nil is
returned. -/
def dupStep (md5hex : List Nat → String) (fs : List FileInfo)
    (checkPath aHash aBasename : String) (aSize : Int) (ev : String × Bool) :
    List Line × Bool :=
  if ev.2 then ([Line.dupAccessError ev.1], true)
  else if extName ev.1 ≠ ".svg" then ([], false)
  else
    let nameLines := if aBasename = baseName ev.1 then [Line.duplicateName checkPath ev.1] else []
    let bSize := getFileSize fs ev.1
    let sizeLines := if aSize = bSize.1 then [Line.duplicateSize checkPath ev.1] else []
    let bHash := makeHash md5hex fs ev.1
    let hashLines := if aHash = bHash.1 then [Line.duplicateHash checkPath ev.1] else []
    (nameLines ++ bSize.2 ++ sizeLines ++ bHash.2 ++ hashLines, false)

/-- `checkDuplicates`: hash, basename and size of the candidate, then a
fresh walk of the reference directory (`refWalk` is the sequence of visited
entries with their traversal-error flags), then the final walk-error line
when the walk returned an error. -/
def checkDuplicates (md5hex : List Nat → String) (fs : List FileInfo)
    (checkPath dupDir : String) (refWalk : List (String × Bool)) : List Line :=
  let aHash := makeHash md5hex fs checkPath
  let aBasename := baseName checkPath
  let aSize := getFileSize fs checkPath
  let w := runWalk (dupStep md5hex fs checkPath aHash.1 aBasename aSize.1) refWalk
  aHash.2 ++ aSize.2 ++ w.1 ++ (if w.2 then [Line.dupWalkError dupDir] else [])

/-! ### Tile Walker -/

/-- One entry visited by the `checkTiles` walk: `accessErr` is whether the
walker passed a non-nil error for it, `openable` whether `os.Open`
succeeds, `parsed` the extracted document (`none` on an XML parse
error). -/
structure CheckEntry where
  path : String
  accessErr : Bool
  openable : Bool
  parsed : Option TileDocument
deriving DecidableEq, Repr

/-- The body of the `filepath.Walk` callback inside `checkTiles`.  A
non-nil incoming error is printed and returned (aborting the walk);
non-`.svg` entries are skipped; an open failure is printed and the error
returned (aborting); a parse failure prints the `parseSvg` line and returns
the error (aborting); otherwise the six checks and the duplicate scan run
and nil is returned. -/
def tileStep (md5hex : List Nat → String) (fs : List FileInfo) (sp : Speller)
    (dupDir : String) (refWalk : List (String × Bool)) (e : CheckEntry) :
    List Line × Bool :=
  if e.accessErr then ([Line.tilesAccessError e.path], true)
  else if extName e.path ≠ ".svg" then ([], false)
  else if e.openable = false then ([Line.tilesOpenError e.path], true)
  else
    match e.parsed with
    | none => ([Line.parseSvgError e.path], true)
    | some doc =>
      (checkKeywords e.path doc ++ checkSize e.path doc ++ checkUnits e.path doc ++
        checkIdentifier e.path doc ++ checkKeywordSpelling sp e.path doc ++
        checkTspanSpelling sp e.path doc ++
        checkDuplicates md5hex fs e.path dupDir refWalk, false)

/-- `checkTiles`: walk the check directory; when the walk returned an error
print the final walk-error line; the error of the walk is also the
return value of the function (second component). -/
def checkTiles (md5hex : List Nat → String) (fs : List FileInfo) (sp : Speller)
    (checkDir dupDir : String) (refWalk : List (String × Bool))
    (entries : List CheckEntry) : List Line × Bool :=
  let r := runWalk (tileStep md5hex fs sp dupDir refWalk) entries
  (r.1 ++ (if r.2 then [Line.tilesWalkError checkDir] else []), r.2)

/-! ### Schema-decode variant

The second source variant decodes into a fixed `Svg` struct.  Its
`Identifier` field is a plain string, which the Go xml decoder leaves
empty both when the `identifier` element is absent and when it is present
with empty content; its `checkIdentifier` therefore tests the string
against `""`. -/

namespace SchemaVariant

/-- `checkIdentifier` (schema-decode variant): ERROR iff the decoded
identifier string is empty; an absent element decodes to `""`. -/
def checkIdentifier (path : String) (doc : TileDocument) : List Line :=
  if doc.identifier.getD "" = "" then [Line.identifierMissing path] else []

end SchemaVariant

/-! ### Helper lemmas -/

/-- The lines printed by `toFloat` are nothing or its conversion-error line. -/
lemma toFloat_snd (s : String) :
    (toFloat s).2 = [] ∨ (toFloat s).2 = [Line.toFloatError s] := by
  unfold toFloat
  cases parseDecimal (stripNonNumeric s) <;> simp

/-- The lines printed by `makeHash` are nothing or its error line. -/
lemma makeHash_snd (md5hex : List Nat → String) (fs : List FileInfo) (p : String) :
    (makeHash md5hex fs p).2 = [] ∨ (makeHash md5hex fs p).2 = [Line.makeHashError p] := by
  unfold makeHash
  cases (lookupFS fs p).bind FileInfo.content <;> simp

/-- The lines printed by `getFileSize` are nothing or its error line. -/
lemma getFileSize_snd (fs : List FileInfo) (p : String) :
    (getFileSize fs p).2 = [] ∨ (getFileSize fs p).2 = [Line.getFileSizeError p] := by
  unfold getFileSize
  cases (lookupFS fs p).bind FileInfo.size <;> simp

/-- A string with a given two-character suffix ends, reversed, in those two
characters. -/
lemma hasSuffix_pair (s p : String) (a b : Char) (hp : p.data = [a, b])
    (h : hasSuffix s p = true) :
    s.data.reverse.head? = some b ∧ s.data.reverse.tail.head? = some a := by
  unfold hasSuffix at h
  have h2 : p.data <:+ s.data := List.isSuffixOf_iff_suffix.mp h
  obtain ⟨t, ht⟩ := h2
  rw [← ht, hp]
  simp

/-- A string with a given one-character suffix ends in that character. -/
lemma hasSuffix_single (s p : String) (a : Char) (hp : p.data = [a])
    (h : hasSuffix s p = true) : s.data.reverse.head? = some a := by
  unfold hasSuffix at h
  have h2 : p.data <:+ s.data := List.isSuffixOf_iff_suffix.mp h
  obtain ⟨t, ht⟩ := h2
  rw [← ht, hp]
  simp

/-- Two two-character suffixes with different last characters cannot both
hold. -/
lemma hasSuffix_false_of_last_ne (s p q : String) (a b c d : Char)
    (hp : p.data = [a, b]) (hq : q.data = [c, d]) (hne : b ≠ d)
    (h : hasSuffix s p = true) : hasSuffix s q = false := by
  cases hx : hasSuffix s q with
  | false => rfl
  | true =>
    have h1 := (hasSuffix_pair s p a b hp h).1
    have h2 := (hasSuffix_pair s q c d hq hx).1
    rw [h1] at h2
    exact absurd (Option.some.inj h2) hne

/-- Two two-character suffixes with different first characters cannot both
hold. -/
lemma hasSuffix_false_of_penult_ne (s p q : String) (a b c d : Char)
    (hp : p.data = [a, b]) (hq : q.data = [c, d]) (hne : a ≠ c)
    (h : hasSuffix s p = true) : hasSuffix s q = false := by
  cases hx : hasSuffix s q with
  | false => rfl
  | true =>
    have h1 := (hasSuffix_pair s p a b hp h).2
    have h2 := (hasSuffix_pair s q c d hq hx).2
    rw [h1] at h2
    exact absurd (Option.some.inj h2) hne

/-- A one-character suffix rules out any two-character suffix with a
different last character. -/
lemma hasSuffix_false_of_single (s p q : String) (a c d : Char)
    (hp : p.data = [a]) (hq : q.data = [c, d]) (hne : a ≠ d)
    (h : hasSuffix s p = true) : hasSuffix s q = false := by
  cases hx : hasSuffix s q with
  | false => rfl
  | true =>
    have h1 := hasSuffix_single s p a hp h
    have h2 := (hasSuffix_pair s q c d hq hx).1
    rw [h1] at h2
    exact absurd (Option.some.inj h2) hne

/-! ### C4 -/

/-- C4: `getUnitConversion` returns the documented px-per-unit constant for
the case-sensitive suffixes `in, mm, pt, pc, ft, cm, m`, tested in that
fixed priority order — a string ending in `mm` or `cm` yields the mm or cm
constant and never the m constant — and returns exactly 1.0 for any other
or missing suffix. -/
theorem c4_unit_multiplier (s : String) :
    (hasSuffix s "in" = true → getUnitConversion s = pxPerIn) ∧
    (hasSuffix s "mm" = true → getUnitConversion s = pxPerMm) ∧
    (hasSuffix s "pt" = true → getUnitConversion s = pxPerPt) ∧
    (hasSuffix s "pc" = true → getUnitConversion s = pxPerPc) ∧
    (hasSuffix s "ft" = true → getUnitConversion s = pxPerFt) ∧
    (hasSuffix s "cm" = true → getUnitConversion s = pxPerCm) ∧
    (hasSuffix s "m" = true → hasSuffix s "mm" = false → hasSuffix s "cm" = false →
      getUnitConversion s = pxPerM) ∧
    (hasSuffix s "mm" = true ∨ hasSuffix s "cm" = true →
      getUnitConversion s ≠ pxPerM) ∧
    (hasSuffix s "in" = false → hasSuffix s "mm" = false → hasSuffix s "pt" = false →
      hasSuffix s "pc" = false → hasSuffix s "ft" = false → hasSuffix s "cm" = false →
      hasSuffix s "m" = false → getUnitConversion s = 1.0) := by
  have hmm : hasSuffix s "mm" = true → getUnitConversion s = pxPerMm := by
    intro h
    have hin := hasSuffix_false_of_last_ne s "mm" "in" 'm' 'm' 'i' 'n' rfl rfl (by decide) h
    simp [getUnitConversion, h, hin]
  have hcm : hasSuffix s "cm" = true → getUnitConversion s = pxPerCm := by
    intro h
    have hin := hasSuffix_false_of_last_ne s "cm" "in" 'c' 'm' 'i' 'n' rfl rfl (by decide) h
    have h2 := hasSuffix_false_of_penult_ne s "cm" "mm" 'c' 'm' 'm' 'm' rfl rfl (by decide) h
    have h3 := hasSuffix_false_of_last_ne s "cm" "pt" 'c' 'm' 'p' 't' rfl rfl (by decide) h
    have h4 := hasSuffix_false_of_last_ne s "cm" "pc" 'c' 'm' 'p' 'c' rfl rfl (by decide) h
    have h5 := hasSuffix_false_of_last_ne s "cm" "ft" 'c' 'm' 'f' 't' rfl rfl (by decide) h
    simp [getUnitConversion, h, hin, h2, h3, h4, h5]
  refine ⟨?_, hmm, ?_, ?_, ?_, hcm, ?_, ?_, ?_⟩
  · intro h
    simp [getUnitConversion, h]
  · intro h
    have hin := hasSuffix_false_of_last_ne s "pt" "in" 'p' 't' 'i' 'n' rfl rfl (by decide) h
    have h2 := hasSuffix_false_of_last_ne s "pt" "mm" 'p' 't' 'm' 'm' rfl rfl (by decide) h
    simp [getUnitConversion, h, hin, h2]
  · intro h
    have hin := hasSuffix_false_of_last_ne s "pc" "in" 'p' 'c' 'i' 'n' rfl rfl (by decide) h
    have h2 := hasSuffix_false_of_last_ne s "pc" "mm" 'p' 'c' 'm' 'm' rfl rfl (by decide) h
    have h3 := hasSuffix_false_of_last_ne s "pc" "pt" 'p' 'c' 'p' 't' rfl rfl (by decide) h
    simp [getUnitConversion, h, hin, h2, h3]
  · intro h
    have hin := hasSuffix_false_of_last_ne s "ft" "in" 'f' 't' 'i' 'n' rfl rfl (by decide) h
    have h2 := hasSuffix_false_of_last_ne s "ft" "mm" 'f' 't' 'm' 'm' rfl rfl (by decide) h
    have h3 := hasSuffix_false_of_penult_ne s "ft" "pt" 'f' 't' 'p' 't' rfl rfl (by decide) h
    have h4 := hasSuffix_false_of_last_ne s "ft" "pc" 'f' 't' 'p' 'c' rfl rfl (by decide) h
    simp [getUnitConversion, h, hin, h2, h3, h4]
  · intro h hnmm hncm
    have hin := hasSuffix_false_of_single s "m" "in" 'm' 'i' 'n' rfl rfl (by decide) h
    have h3 := hasSuffix_false_of_single s "m" "pt" 'm' 'p' 't' rfl rfl (by decide) h
    have h4 := hasSuffix_false_of_single s "m" "pc" 'm' 'p' 'c' rfl rfl (by decide) h
    have h5 := hasSuffix_false_of_single s "m" "ft" 'm' 'f' 't' rfl rfl (by decide) h
    simp [getUnitConversion, h, hin, hnmm, h3, h4, h5, hncm]
  · rintro (h | h)
    · rw [hmm h]
      with_unfolding_all decide
    · rw [hcm h]
      with_unfolding_all decide
  · intro h1 h2 h3 h4 h5 h6 h7
    simp [getUnitConversion, h1, h2, h3, h4, h5, h6, h7]

/-- C4 witness: the theorem applied at `"5mm"`. -/
theorem c4_witness : getUnitConversion "5mm" = pxPerMm :=
  (c4_unit_multiplier "5mm").2.1 (by decide)

/-! ### C5 -/

/-- C5: `toFloat` strips every character that is not a digit or a decimal
point and parses the remainder (inserting a strip pass before parsing
changes nothing, and `toFloat "80.5mm" = 80.5` with no error); when the
stripped remainder is empty or not numeric it reports the conversion-error
line and returns the best-effort value 0 instead of aborting. -/
theorem c5_magnitude :
    toFloat "80.5mm" = (80.5, []) ∧
    (∀ s : String, (toFloat s).1 = (toFloat (stripNonNumeric s)).1) ∧
    (∀ s : String, parseDecimal (stripNonNumeric s) = none →
      toFloat s = (0, [Line.toFloatError s])) := by
  have hidem : ∀ s : String, stripNonNumeric (stripNonNumeric s) = stripNonNumeric s := by
    intro s
    have hdata : ∀ l : List Char, (String.mk l).data = l := fun l => rfl
    have hfun : (fun a : Char => (a.isDigit || decide (a = '.')) && (a.isDigit || decide (a = '.'))) =
        fun c : Char => c.isDigit || decide (c = '.') := by
      funext a
      rw [Bool.and_self]
    unfold stripNonNumeric
    rw [hdata, List.filter_filter, hfun]
  refine ⟨by with_unfolding_all decide, ?_, ?_⟩
  · intro s
    unfold toFloat
    rw [hidem]
    cases parseDecimal (stripNonNumeric s) <;> simp
  · intro s h
    simp [toFloat, h]

/-- C5 witness: the error branch of the theorem applied at `"xy"`. -/
theorem c5_witness : toFloat "xy" = (0, [Line.toFloatError "xy"]) :=
  c5_magnitude.2.2 "xy" (by decide)

/-! ### C3 -/

/-- C3: the minimum-size check compares the raw parsed magnitude of the
width/height strings against the threshold 80, with no unit conversion: a
width error appears exactly when `toFloat width < 80`; a document with
width `"80mm"` gets the width-unit WARNING but no width-size ERROR; a
document with width `"60"` and height `"100"` gets exactly one width-size
ERROR and no height-size ERROR. -/
theorem c3_raw_magnitude_size (path : String) (doc : TileDocument) :
    (Line.widthTooSmall path (toFloat doc.width).1 ∈ checkSize path doc ↔
      (toFloat doc.width).1 < minWidth) ∧
    (doc.width = "80mm" →
      Line.widthUnitsNotPx path "80mm" ∈ checkUnits path doc ∧
      ∀ w : ℚ, Line.widthTooSmall path w ∉ checkSize path doc) ∧
    (doc.width = "60" → doc.height = "100" →
      checkSize path doc = [Line.widthTooSmall path 60]) := by
  refine ⟨?_, ?_, ?_⟩
  · rcases toFloat_snd doc.width with hw | hw <;>
      rcases toFloat_snd doc.height with hh | hh <;>
      by_cases h1 : (toFloat doc.width).1 < minWidth <;>
      by_cases h2 : (toFloat doc.height).1 < minHeight <;>
      simp [checkSize, hw, hh, h1, h2]
  · intro hw80
    constructor
    · have hu : getUnitConversion "80mm" = pxPerMm := by simp +decide [getUnitConversion]
      have hne : getUnitConversion "80mm" ≠ 1.0 := by
        rw [hu]
        with_unfolding_all decide
      simp [checkUnits, hw80, hne]
    · intro w
      have hwf : toFloat "80mm" = (80, []) := by with_unfolding_all decide
      have h80 : ¬ ((80 : ℚ) < minWidth) := by with_unfolding_all decide
      rcases toFloat_snd doc.height with hh | hh <;>
        by_cases h2 : (toFloat doc.height).1 < minHeight <;>
        simp [checkSize, hw80, hwf, h80, hh, h2]
  · intro hw hh
    have h1 : toFloat "60" = (60, []) := by with_unfolding_all decide
    have h2 : toFloat "100" = (100, []) := by with_unfolding_all decide
    have h3 : (60 : ℚ) < minWidth := by with_unfolding_all decide
    have h4 : ¬ ((100 : ℚ) < minHeight) := by with_unfolding_all decide
    simp [checkSize, hw, hh, h1, h2, h3, h4]

/-- A 60x100 document with no other content. -/
def doc6010 : TileDocument := ⟨"60", "100", "", [], none, []⟩

/-- C3 witness: the theorem applied to the 60x100 document. -/
theorem c3_witness : checkSize "t.svg" doc6010 = [Line.widthTooSmall "t.svg" 60] :=
  (c3_raw_magnitude_size "t.svg" doc6010).2.2 rfl rfl

/-! ### C6 -/

/-- C6: for every document whose keyword sequence is empty, whatever the
other fields and the speller, the keyword-presence check emits exactly the
keyword-missing ERROR and the keyword-spelling check emits no report-sink
diagnostic at all. -/
theorem c6_empty_keywords (sp : Speller) (path : String) (doc : TileDocument)
    (h : doc.keywords = []) :
    checkKeywords path doc = [Line.keywordsMissing path] ∧
    diags (checkKeywordSpelling sp path doc) = [] := by
  constructor
  · simp [checkKeywords, h]
  · cases hok : sp.ok <;> simp [checkKeywordSpelling, hok, h, diags, severity]

/-- A speller that accepts everything. -/
def spAll : Speller := ⟨true, fun _ => true⟩

/-- A document with no keywords (and junk in the other fields). -/
def docNoKw : TileDocument := ⟨"10", "10", "", [], some "", ["zz"]⟩

/-- C6 witness: the theorem applied to a keywordless document. -/
theorem c6_witness :
    checkKeywords "t.svg" docNoKw = [Line.keywordsMissing "t.svg"] ∧
    diags (checkKeywordSpelling spAll "t.svg" docNoKw) = [] :=
  c6_empty_keywords spAll "t.svg" docNoKw rfl

/-! ### C7 -/

/-- A document whose identifier element is present but holds the empty
string. -/
def docEmptyId : TileDocument := ⟨"80", "80", "", ["kw"], some "", []⟩

/-- C7 counterexample: in the xmlquery variant, an identifier element that
is present but contains the empty string does NOT trigger the
identifier-missing ERROR — `checkIdentifier` emits nothing for it, against
the claim. -/
theorem c7_counterexample :
    docEmptyId.identifier = some "" ∧ checkIdentifier "t.svg" docEmptyId = [] :=
  ⟨rfl, rfl⟩

/-- C7 amended: the xmlquery variant emits the identifier ERROR exactly
when the `dc:identifier` element is absent (a present-but-empty element
does not trigger it); the schema-decode variant emits it exactly when the
decoded identifier string is empty, where an absent element decodes to the
empty string, so there a present-but-empty element does trigger it. -/
theorem c7_amended (path : String) (doc : TileDocument) :
    (checkIdentifier path doc = [Line.identifierMissing path] ↔ doc.identifier = none) ∧
    (SchemaVariant.checkIdentifier path doc = [Line.identifierMissing path] ↔
      doc.identifier.getD "" = "") := by
  constructor
  · rcases hi : doc.identifier with _ | v <;> simp [checkIdentifier, hi]
  · by_cases he : doc.identifier.getD "" = "" <;> simp [SchemaVariant.checkIdentifier, he]

/-- C7 witness: the schema-decode variant does emit the ERROR for the
present-but-empty identifier. -/
theorem c7_witness :
    SchemaVariant.checkIdentifier "t.svg" docEmptyId = [Line.identifierMissing "t.svg"] :=
  (c7_amended "t.svg" docEmptyId).2.mpr rfl

/-! ### C8 -/

/-- Every token collected by the `checkTspanSpelling` loop was rejected by
the dictionary on its slash-stripped form. -/
lemma rejectedTokens_aux (sp : Speller) (runs : List String) (acc : List String)
    (hacc : ∀ w ∈ acc, sp.check (stripSlashes w) = false) :
    ∀ w ∈ runs.foldl
      (fun acc t =>
        if t ≠ "" then acc ++ (splitSpace t).filter (fun x => !sp.check (stripSlashes x))
        else acc)
      acc,
      sp.check (stripSlashes w) = false := by
  induction runs generalizing acc with
  | nil => simpa using hacc
  | cons t rest ih =>
    intro w hw
    simp only [List.foldl_cons] at hw
    refine ih _ ?_ w hw
    intro x hx
    by_cases ht : t = ""
    · simp only [ht, ne_eq, not_true_eq_false, if_false] at hx
      exact hacc x hx
    · simp only [ne_eq, ht, not_false_eq_true, if_true, List.mem_append] at hx
      rcases hx with hx | hx
      · exact hacc x hx
      · have := (List.mem_filter.mp hx).2
        simpa using this

/-- C8: with an initialized speller, the text-run spelling check tokenizes
every text run on single-space boundaries, tests each token with its
forward slashes stripped, and emits exactly one ERROR listing all rejected
tokens comma-joined when there are any, and nothing when there are none. -/
theorem c8_tspan_spelling (sp : Speller) (path : String) (doc : TileDocument)
    (hok : sp.ok = true) :
    (rejectedTokens sp doc.textRuns = [] → checkTspanSpelling sp path doc = []) ∧
    (rejectedTokens sp doc.textRuns ≠ [] →
      checkTspanSpelling sp path doc =
        [Line.textMisspelled path
          (String.intercalate ", " (rejectedTokens sp doc.textRuns))]) ∧
    (∀ w ∈ rejectedTokens sp doc.textRuns, sp.check (stripSlashes w) = false) := by
  refine ⟨?_, ?_, ?_⟩
  · intro h
    simp [checkTspanSpelling, hok, h]
  · intro h
    have hlen : ¬ (doc.textRuns.length = 0) := by
      intro h0
      apply h
      have hnil : doc.textRuns = [] := List.length_eq_zero.mp h0
      simp [rejectedTokens, hnil]
    have hpos : 0 < (rejectedTokens sp doc.textRuns).length := List.length_pos.mpr h
    simp [checkTspanSpelling, hok, hlen, hpos]
  · intro w hw
    refine rejectedTokens_aux sp doc.textRuns [] (by simp) w ?_
    simpa [rejectedTokens] using hw

/-- A speller that accepts only the word `ab`. -/
def spAB : Speller := ⟨true, fun w => decide (w = "ab")⟩

/-- A document with one text run containing two slashed tokens: `a/b`
(accepted once the slash is stripped) and `x/yz` (rejected). -/
def docSlash : TileDocument := ⟨"80", "80", "", [], some "id", ["a/b x/yz"]⟩

/-- C8 witness: the theorem applied to `docSlash` — the token `a/b` passes
thanks to slash stripping and the single ERROR lists the rejected token. -/
theorem c8_witness :
    checkTspanSpelling spAB "t.svg" docSlash =
      [Line.textMisspelled "t.svg"
        (String.intercalate ", " (rejectedTokens spAB docSlash.textRuns))] :=
  (c8_tspan_spelling spAB "t.svg" docSlash rfl).2.1 (by decide)

/-! ### C9 -/

/-- C9: the Duplicate Detector considers only reference entries with
extension exactly `.svg`, and evaluates the three axes independently: for a
reference file with the same content and stat size as the candidate but a
different base filename, the scan of that single file reports both the
duplicate-size WARNING and the duplicate-hash WARNING (one reference file,
two match lines) and no duplicate-name WARNING for any path. -/
theorem c9_duplicate_axes (md5hex : List Nat → String) (fs : List FileInfo)
    (cPath rPath dupDir : String) (cFi rFi : FileInfo)
    (hc : lookupFS fs cPath = some cFi) (hr : lookupFS fs rPath = some rFi)
    (hcont : cFi.content = rFi.content) (hsize : cFi.size = rFi.size)
    (hext : extName rPath = ".svg")
    (hname : baseName cPath ≠ baseName rPath) :
    Line.duplicateSize cPath rPath ∈ checkDuplicates md5hex fs cPath dupDir [(rPath, false)] ∧
    Line.duplicateHash cPath rPath ∈ checkDuplicates md5hex fs cPath dupDir [(rPath, false)] ∧
    (∀ p, Line.duplicateName cPath p ∉ checkDuplicates md5hex fs cPath dupDir [(rPath, false)]) ∧
    (∀ q aH aB aS, extName q ≠ ".svg" →
      dupStep md5hex fs cPath aH aB aS (q, false) = ([], false)) := by
  have hH : (makeHash md5hex fs cPath).1 = (makeHash md5hex fs rPath).1 := by
    unfold makeHash
    rw [hc, hr]
    simp only [Option.bind]
    rw [hcont]
    cases rFi.content <;> rfl
  have hS : (getFileSize fs cPath).1 = (getFileSize fs rPath).1 := by
    unfold getFileSize
    rw [hc, hr]
    simp only [Option.bind]
    rw [hsize]
    cases rFi.size <;> rfl
  have hq : ∀ q aH aB aS, extName q ≠ ".svg" →
      dupStep md5hex fs cPath aH aB aS (q, false) = ([], false) := by
    intro q aH aB aS hqe
    simp [dupStep, hqe]
  refine ⟨?_, ?_, ?_, hq⟩ <;>
    · intros
      rcases makeHash_snd md5hex fs cPath with hmc | hmc <;>
        rcases makeHash_snd md5hex fs rPath with hmr | hmr <;>
        rcases getFileSize_snd fs cPath with hsc | hsc <;>
        rcases getFileSize_snd fs rPath with hsr | hsr <;>
        simp [checkDuplicates, runWalk, dupStep, hext, hname, hH, hS, hmc, hmr, hsc, hsr]

/-- A digest function used only to instantiate witnesses (the theorems hold
for every digest function). -/
def cMd5 : List Nat → String := fun _ => "H"

/-- Two byte-identical `.svg` files with different base names. -/
def fs9 : List FileInfo :=
  [⟨"a/c.svg", some [7], some 3⟩, ⟨"r/d.svg", some [7], some 3⟩]

/-- C9 witness: the theorem applied to `fs9`. -/
theorem c9_witness :
    Line.duplicateSize "a/c.svg" "r/d.svg" ∈
      checkDuplicates cMd5 fs9 "a/c.svg" "dup" [("r/d.svg", false)] :=
  (c9_duplicate_axes cMd5 fs9 "a/c.svg" "r/d.svg" "dup"
    ⟨"a/c.svg", some [7], some 3⟩ ⟨"r/d.svg", some [7], some 3⟩
    (by decide) (by decide) rfl rfl (by decide) (by decide)).1

/-! ### C10 -/

/-- C10: a hash failure makes `makeHash` return the empty string and a stat
failure makes `getFileSize` return 0; the sentinels still feed the match
comparisons, so a candidate and a reference `.svg` file that both fail
hashing get the duplicate-hash WARNING and both failing stat (size 0) get
the duplicate-size WARNING. -/
theorem c10_sentinel_match (md5hex : List Nat → String) (fs : List FileInfo)
    (cPath rPath dupDir : String)
    (hcc : (lookupFS fs cPath).bind FileInfo.content = none)
    (hrc : (lookupFS fs rPath).bind FileInfo.content = none)
    (hcs : (lookupFS fs cPath).bind FileInfo.size = none)
    (hrs : (lookupFS fs rPath).bind FileInfo.size = none)
    (hext : extName rPath = ".svg") :
    makeHash md5hex fs cPath = ("", [Line.makeHashError cPath]) ∧
    getFileSize fs cPath = (0, [Line.getFileSizeError cPath]) ∧
    Line.duplicateHash cPath rPath ∈ checkDuplicates md5hex fs cPath dupDir [(rPath, false)] ∧
    Line.duplicateSize cPath rPath ∈ checkDuplicates md5hex fs cPath dupDir [(rPath, false)] := by
  have h1 : makeHash md5hex fs cPath = ("", [Line.makeHashError cPath]) := by
    unfold makeHash
    rw [hcc]
  have h1r : makeHash md5hex fs rPath = ("", [Line.makeHashError rPath]) := by
    unfold makeHash
    rw [hrc]
  have h2 : getFileSize fs cPath = (0, [Line.getFileSizeError cPath]) := by
    unfold getFileSize
    rw [hcs]
  have h2r : getFileSize fs rPath = (0, [Line.getFileSizeError rPath]) := by
    unfold getFileSize
    rw [hrs]
  refine ⟨h1, h2, ?_, ?_⟩ <;>
    · by_cases hn : baseName cPath = baseName rPath <;>
        simp [checkDuplicates, runWalk, dupStep, hext, hn, h1, h1r, h2, h2r]

/-- C10 witness: the theorem applied to the empty filesystem, in which
every open and every stat fails. -/
theorem c10_witness :
    Line.duplicateHash "a/c.svg" "r/d.svg" ∈
      checkDuplicates cMd5 [] "a/c.svg" "dup" [("r/d.svg", false)] :=
  (c10_sentinel_match cMd5 [] "a/c.svg" "r/d.svg" "dup"
    rfl rfl rfl rfl (by decide)).2.2.1

/-! ### C1 -/

/-- A `.svg` entry that opens but whose XML does not parse. -/
def eBad : CheckEntry := ⟨"chk/bad.svg", false, true, none⟩

/-- A keywordless document that produces the keyword-missing ERROR when
its file is processed. -/
def docGood : TileDocument := ⟨"100", "100", "", [], some "id", []⟩

/-- A healthy `.svg` entry parsed as `docGood`. -/
def eGood : CheckEntry := ⟨"chk/good.svg", false, true, some docGood⟩

/-- C1 counterexample: with no traversal-level error anywhere, a walk over
an unparseable file followed by a healthy file returns an error (aborts)
after reporting only the parse error — the healthy file is never checked
(its keyword-missing ERROR, which appears when it is walked alone, is
absent) — against the claim that file-level errors only skip the file. -/
theorem c1_counterexample :
    eBad.accessErr = false ∧ eGood.accessErr = false ∧
    (checkTiles cMd5 [] spAll "chk" "dup" [] [eBad, eGood]).2 = true ∧
    (checkTiles cMd5 [] spAll "chk" "dup" [] [eBad, eGood]).1 =
      [Line.parseSvgError "chk/bad.svg", Line.tilesWalkError "chk"] ∧
    Line.keywordsMissing "chk/good.svg" ∈
      (checkTiles cMd5 [] spAll "chk" "dup" [] [eGood]).1 := by
  with_unfolding_all decide

/-- C1 amended: an error fatal to one file (the file cannot be opened, or
its XML cannot be parsed) is reported, but the walk callback returns the
error, so the walk aborts immediately — the remaining files are not
visited and `checkTiles` returns the error — exactly as it does on a
directory-traversal-level error. -/
theorem c1_amended (md5hex : List Nat → String) (fs : List FileInfo) (sp : Speller)
    (checkDir dupDir : String) (refWalk : List (String × Bool))
    (e : CheckEntry) (rest : List CheckEntry)
    (hacc : e.accessErr = false) (hext : extName e.path = ".svg")
    (hbad : e.openable = false ∨ e.parsed = none) :
    checkTiles md5hex fs sp checkDir dupDir refWalk (e :: rest) =
      ((if e.openable = false then [Line.tilesOpenError e.path]
        else [Line.parseSvgError e.path]) ++ [Line.tilesWalkError checkDir], true) := by
  obtain ⟨p, a, o, d⟩ := e
  replace hacc : a = false := hacc
  replace hext : extName p = ".svg" := hext
  replace hbad : o = false ∨ d = none := hbad
  subst hacc
  cases o with
  | false => simp [checkTiles, runWalk, tileStep, hext]
  | true =>
    rcases hbad with h | h
    · exact absurd h (by simp)
    · subst h
      simp [checkTiles, runWalk, tileStep, hext]

/-- C1 witness: the amended theorem applied to the unparseable entry. -/
theorem c1_witness :
    checkTiles cMd5 [] spAll "chk" "dup" [] [eBad] =
      ([Line.parseSvgError "chk/bad.svg", Line.tilesWalkError "chk"], true) := by
  have h := c1_amended cMd5 [] spAll "chk" "dup" [] eBad [] rfl (by decide) (Or.inr rfl)
  simpa [eBad] using h

/-! ### C2 -/

/-- A candidate and a byte-identical reference file. -/
def fsC2 : List FileInfo :=
  [⟨"chk/a.svg", some [1], some 1⟩, ⟨"dup/y.svg", some [1], some 1⟩]

/-- C2 counterexample: a traversal error on one reference entry aborts the
duplicate scan — the output is exactly the access-error line and the
walk-error line, and the byte-identical reference file behind it is never
compared, although it is reported as a size and hash duplicate when it is
scanned alone — against the claim that the scan always continues. -/
theorem c2_counterexample :
    checkDuplicates cMd5 fsC2 "chk/a.svg" "dup" [("dup/x.svg", true), ("dup/y.svg", false)] =
      [Line.dupAccessError "dup/x.svg", Line.dupWalkError "dup"] ∧
    Line.duplicateHash "chk/a.svg" "dup/y.svg" ∈
      checkDuplicates cMd5 fsC2 "chk/a.svg" "dup" [("dup/y.svg", false)] ∧
    Line.duplicateSize "chk/a.svg" "dup/y.svg" ∈
      checkDuplicates cMd5 fsC2 "chk/a.svg" "dup" [("dup/y.svg", false)] := by
  with_unfolding_all decide

/-- C2 amended: a per-file hashing failure inside the duplicate scan is
reported (the `makeHash` error line) with the digest treated as the empty
string, and the walk continues past that entry; but a traversal error on a
reference entry is reported and returned by the walk callback, aborting
the remainder of the scan. -/
theorem c2_amended (md5hex : List Nat → String) (fs : List FileInfo)
    (checkPath aHash aBasename : String) (aSize : Int)
    (ev : String × Bool) (rest : List (String × Bool)) :
    (ev.2 = false →
      (dupStep md5hex fs checkPath aHash aBasename aSize ev).2 = false ∧
      runWalk (dupStep md5hex fs checkPath aHash aBasename aSize) (ev :: rest) =
        ((dupStep md5hex fs checkPath aHash aBasename aSize ev).1 ++
          (runWalk (dupStep md5hex fs checkPath aHash aBasename aSize) rest).1,
         (runWalk (dupStep md5hex fs checkPath aHash aBasename aSize) rest).2)) ∧
    (ev.2 = false → extName ev.1 = ".svg" →
      (lookupFS fs ev.1).bind FileInfo.content = none →
      Line.makeHashError ev.1 ∈ (dupStep md5hex fs checkPath aHash aBasename aSize ev).1) ∧
    (ev.2 = true →
      runWalk (dupStep md5hex fs checkPath aHash aBasename aSize) (ev :: rest) =
        ([Line.dupAccessError ev.1], true)) := by
  obtain ⟨p, b⟩ := ev
  refine ⟨?_, ?_, ?_⟩
  · intro hb
    replace hb : b = false := hb
    subst hb
    have hstep : (dupStep md5hex fs checkPath aHash aBasename aSize (p, false)).2 = false := by
      by_cases hx : extName p = ".svg" <;> simp [dupStep, hx]
    refine ⟨hstep, ?_⟩
    simp [runWalk, hstep]
  · intro hb hsvg hnone
    replace hb : b = false := hb
    replace hsvg : extName p = ".svg" := hsvg
    replace hnone : (lookupFS fs p).bind FileInfo.content = none := hnone
    subst hb
    have hmk : makeHash md5hex fs p = ("", [Line.makeHashError p]) := by
      unfold makeHash
      rw [hnone]
    by_cases h1 : aBasename = baseName p <;>
      by_cases h2 : aSize = (getFileSize fs p).1 <;>
      by_cases h3 : aHash = (makeHash md5hex fs p).1 <;>
      simp [dupStep, hsvg, h1, h2, h3, hmk]
  · intro hb
    replace hb : b = true := hb
    subst hb
    simp [runWalk, dupStep]

/-- C2 witness: the amended theorem applied on the empty filesystem, where
hashing the reference entry fails, is reported, and does not abort. -/
theorem c2_witness :
    Line.makeHashError "dup/z.svg" ∈
      (dupStep cMd5 [] "chk/a.svg" "" "a.svg" 0 ("dup/z.svg", false)).1 ∧
    (dupStep cMd5 [] "chk/a.svg" "" "a.svg" 0 ("dup/z.svg", false)).2 = false :=
  ⟨(c2_amended cMd5 [] "chk/a.svg" "" "a.svg" 0 ("dup/z.svg", false) []).2.1
      rfl (by decide) rfl,
   ((c2_amended cMd5 [] "chk/a.svg" "" "a.svg" 0 ("dup/z.svg", false) []).1 rfl).1⟩

end Chktiles
